import Mathlib

/-!
Verification of `virtme/mkinitramfs.py` (initramfs image builder).

The archive serializer (`cpiowriter.CpioWriter`) is an external collaborator;
we model it as a trace of sink operations (`SinkOp`).  ELF parsing
(`elftools`) is likewise external; an executable's dynamic-linking metadata is
modelled as `ELFFile` (dynamic section present or not, plus its tags).  The
host filesystem is modelled by a `Host` record (`isfile`, file contents, and
the parsed ELF of a path).  Python exceptions (`FileNotFoundError` from
`open`, `TypeError` from unpacking `None` or opening `None`) are modelled with
`Except Err`.
-/

namespace Virtme

/-- Entry of a dynamic section, as exposed by the ELF-parsing collaborator:
the tag kind (e.g. `DT_NEEDED`) and, for needed-library tags, the library
name. -/
structure DynTag where
  d_tag : String
  needed : String
deriving DecidableEq, Repr

/-- An executable's dynamic-linking metadata surface: `none` when the file has
no `.dynamic` section (statically linked), otherwise the section's tags in
order. -/
structure ELFFile where
  dynamic : Option (List DynTag)
deriving DecidableEq, Repr

/-- Host filesystem abstraction: which paths are regular files
(`os.path.isfile`), the byte content `open(p,'rb').read()` of a file, and the
parsed ELF metadata of an executable path. -/
structure Host where
  isfile : String → Bool
  readFile : String → String
  elf : String → ELFFile

/-- Sink operations of the external archive writer, in emission order.
Mirrors the capability surface used by the source: `cw.mkdir(name, mode)`,
`cw.symlink(target, name)`, `cw.mkchardev(name, (major, minor), mode)`,
`cw.write_file(name, body, mode)`, `cw.write_trailer()`. -/
inductive SinkOp where
  | mkdir (name : String) (mode : Nat)
  | symlink (target : String) (name : String)
  | mkchardev (name : String) (major : Nat) (minor : Nat) (mode : Nat)
  | write_file (name : String) (body : String) (mode : Nat)
  | write_trailer
deriving DecidableEq, Repr

/-- Errors raised by the build: `FileNotFoundError` from `open` on a missing
path, and `TypeError` from using `None` where a value is required (opening
`open(None)`, or unpacking a `None` dependency entry in a `for (a, b) in ...`
loop). -/
inductive Err where
  | fileNotFound (path : String)
  | typeError
deriving DecidableEq, Repr

/-- Split a string at every `/` character (helper for `basename` and for path
normalization; kernel-reduction friendly). -/
def splitSlashAux : List Char → List Char → List String
  | [], acc => [String.mk acc.reverse]
  | c :: cs, acc =>
    if c = '/' then String.mk acc.reverse :: splitSlashAux cs []
    else splitSlashAux cs (c :: acc)

/-- Split a string on `/`. -/
def splitSlash (s : String) : List String := splitSlashAux s.data []

/-- Model of `os.path.basename` on POSIX: everything after the last `/`. -/
def basename (p : String) : String := (splitSlash p).getLastD ""

/-- Model of Python `s.lstrip('/')`: drop every leading `/` character. -/
def lstripSlash (s : String) : String :=
  String.mk (s.data.dropWhile (fun c => c = '/'))

/-- Model of `os.path.join(a, b)` on POSIX: an absolute `b` replaces `a`;
otherwise concatenate, inserting `/` unless `a` is empty or already ends in
`/`. -/
def osPathJoin (a b : String) : String :=
  if b.data.head? = some '/' then b
  else if a = "" ∨ a.data.getLast? = some '/' then a ++ b
  else a ++ "/" ++ b

/-- Characters `shlex.quote` considers safe: ASCII letters, digits,
underscore, and the punctuation at, percent, plus, equals, colon, comma, dot,
slash, dash. -/
def shlexSafe (c : Char) : Bool :=
  c.isAlpha || c.isDigit || c = '_' || c = '@' || c = '%' || c = '+' ||
  c = '=' || c = ':' || c = ',' || c = '.' || c = '/' || c = '-'

/-- Model of `shlex.quote`: empty strings become a pair of single quotes,
strings of safe characters are returned unchanged, anything else is wrapped in
single quotes with each embedded single quote replaced by the five-character
sequence quote, double-quote, quote, double-quote, quote. -/
def shlexQuote (s : String) : String :=
  if s = "" then String.mk ['\x27', '\x27']
  else if s.data.all shlexSafe then s
  else
    String.mk ('\x27' ::
      s.data.foldr
        (fun c acc =>
          if c = '\x27' then '\x27' :: '"' :: '\x27' :: '"' :: '\x27' :: acc
          else c :: acc)
        ['\x27'])

/-- Source: `ld_paths = ['/lib', '/lib64', '/usr/lib', '/usr/lib64']`. -/
def ld_paths : List String := ["/lib", "/lib64", "/usr/lib", "/usr/lib64"]

/-- Source: `is_dt_needed(tag)` — is this dynamic tag a `DT_NEEDED` entry? -/
def is_dt_needed (tag : DynTag) : Bool := tag.d_tag == "DT_NEEDED"

/-- Loop body of `find_library_path`: scan the remaining search directories in
order; on the first directory whose join with `needed` is a regular file,
return the pair (host path, host path `lstrip`-ped of `/`); fall off the end
(Python: implicitly return `None`) when no directory matches. -/
def find_library_path_go (isfile : String → Bool) (needed : String) :
    List String → Option (String × String)
  | [] => none
  | dir :: rest =>
    let p := osPathJoin dir needed
    if isfile p then some (p, lstripSlash p)
    else find_library_path_go isfile needed rest

/-- Source: `find_library_path(needed)` — search `ld_paths` in order. -/
def find_library_path (isfile : String → Bool) (needed : String) :
    Option (String × String) :=
  find_library_path_go isfile needed ld_paths

/-- Source: `find_needed_paths(executable)` on the parsed ELF metadata: with
no `.dynamic` section return `[]`; otherwise collect the `DT_NEEDED` names in
order and map `find_library_path` over them (keeping the `None` results: the
list comprehension performs no filtering of unresolved names). -/
def find_needed_paths (isfile : String → Bool) (elffile : ELFFile) :
    List (Option (String × String)) :=
  match elffile.dynamic with
  | none => []
  | some tags =>
    let neededs := (tags.filter is_dt_needed).map (fun tag => tag.needed)
    neededs.map (fun needed => find_library_path isfile needed)

/-- Directory skeleton created by `make_base_layout`, in emission order. -/
def baseDirs : List String :=
  ["lib", "bin", "var", "etc", "newroot", "dev", "proc",
   "tmproot", "run_virtme", "run_virtme/data", "run_virtme/guesttools"]

/-- Source: `make_base_layout(cw)` — the skeleton directories (mode `0o755`)
followed by the two compatibility symlinks `sbin → bin` and `lib64 → lib`. -/
def make_base_layout : List SinkOp :=
  baseDirs.map (fun d => SinkOp.mkdir d 0o755) ++
  [SinkOp.symlink "bin" "sbin", SinkOp.symlink "lib" "lib64"]

/-- Source: `make_dev_nodes(cw)` — the three character device nodes. -/
def make_dev_nodes : List SinkOp :=
  [SinkOp.mkchardev "dev/null" 1 3 0o666,
   SinkOp.mkchardev "dev/kmsg" 1 11 0o666,
   SinkOp.mkchardev "dev/console" 5 1 0o660]

/-- Source: `copy(cw, src, dst, mode)` — `open(src)` (fails when `src` is not
a readable file) then `write_file` of its content. -/
def copy (host : Host) (src dst : String) (mode : Nat) :
    Except Err (List SinkOp) :=
  if host.isfile src then
    Except.ok [SinkOp.write_file dst (host.readFile src) mode]
  else Except.error (Err.fileNotFound src)

/-- The dependency-copy loop of `install_busybox`:
`for (needed_path, target_path) in find_needed_paths(...)`.  Unpacking a
`None` element raises `TypeError`. -/
def installDeps (host : Host) :
    List (Option (String × String)) → Except Err (List SinkOp)
  | [] => Except.ok []
  | none :: _ => Except.error Err.typeError
  | some (needed_path, target_path) :: rest =>
    match copy host needed_path target_path 0o755 with
    | Except.error e => Except.error e
    | Except.ok c =>
      match installDeps host rest with
      | Except.error e => Except.error e
      | Except.ok r => Except.ok (c ++ r)

/-- Source: `class Config` — the build configuration.  `modfiles` is typed
`List[str]` in the source but the builder guards it with `is not None`, so it
is modelled as an `Option`; `virtme_data` is a mapping iterated in insertion
order, modelled as an association list with unique keys; `busybox` defaults to
`None`. -/
structure Config where
  modfiles : Option (List String)
  virtme_data : List (String × String)
  virtme_init_path : Option String
  busybox : Option String
  access : String

/-- Default field values assigned by `Config.__init__`. -/
def Config.defaults : Config :=
  { modfiles := some [], virtme_data := [], virtme_init_path := none,
    busybox := none, access := "ro" }

/-- Tool names symlinked to `busybox`. -/
def toolNames : List String :=
  ["sh", "mount", "umount", "switch_root", "sleep", "mkdir",
   "mknod", "insmod", "cp", "cat"]

/-- Source: `install_busybox(cw, config)` — copy the configured busybox to
`bin/busybox` (a `None` path raises `TypeError` from `open(None)`, a missing
file raises `FileNotFoundError`), copy each resolved dependency to its
archive path, emit the tool symlinks, and create `bin/real_progs`. -/
def install_busybox (host : Host) (config : Config) :
    Except Err (List SinkOp) :=
  match config.busybox with
  | none => Except.error Err.typeError
  | some bb =>
    match copy host bb "bin/busybox" 0o755 with
    | Except.error e => Except.error e
    | Except.ok c0 =>
      match installDeps host (find_needed_paths host.isfile (host.elf bb)) with
      | Except.error e => Except.error e
      | Except.ok deps =>
        Except.ok (c0 ++ deps ++
          toolNames.map (fun tool => SinkOp.symlink "busybox" ("bin/" ++ tool)) ++
          [SinkOp.mkdir "bin/real_progs" 0o755])

/-- Source: `install_modprobe(cw)` — the `bin/modprobe` stub script. -/
def install_modprobe : List SinkOp :=
  [SinkOp.write_file "bin/modprobe"
    "#!/bin/sh\necho \"virtme: initramfs does not have module $3\" >/dev/console\nexit 1"
    0o755]

/-- Source: the `_LOGFUNC` shell snippet (verbatim, tabs included). -/
def logfuncText : String :=
  "log() \x7b\n    if [[ -e /dev/kmsg ]]; then\n\techo \"<6>virtme initramfs: $*\" >/dev/kmsg\n    else\n\techo \"virtme initramfs: $*\"\n    fi\n\x7d\n"

/-- The module-copy loop of `install_modules`: `open(mod)` (fails when the
path is not a readable file), then `write_file` of the content at
`modules/<basename>` with mode `0o644`, preserving input order. -/
def modWrites (host : Host) : List String → Except Err (List SinkOp)
  | [] => Except.ok []
  | mod :: rest =>
    if host.isfile mod then
      match modWrites host rest with
      | Except.error e => Except.error e
      | Except.ok r =>
        Except.ok (SinkOp.write_file ("modules/" ++ basename mod)
          (host.readFile mod) 0o644 :: r)
    else Except.error (Err.fileNotFound mod)

/-- Archive paths accumulated by `install_modules` (`paths` in the source):
`'modules/' + os.path.basename(mod)` for each module, in order. -/
def modArchivePaths (modfiles : List String) : List String :=
  modfiles.map (fun mod => "modules/" ++ basename mod)

/-- One line of the loader script:
`'log \x27loading %s...\x27; insmod %s' % (os.path.basename(p), shlex.quote(p))`. -/
def loadLine (p : String) : String :=
  "log \x27loading " ++ basename p ++ "...\x27; insmod " ++ shlexQuote p

/-- The loader-script body: `_LOGFUNC + '\n'.join(...)`. -/
def load_all_script (modfiles : List String) : String :=
  logfuncText ++ String.intercalate "\n" ((modArchivePaths modfiles).map loadLine)

/-- Source: `install_modules(cw, modfiles)` — `mkdir modules` first, then the
module copies, then `modules/load_all.sh`. -/
def install_modules (host : Host) (modfiles : List String) :
    Except Err (List SinkOp) :=
  match modWrites host modfiles with
  | Except.error e => Except.error e
  | Except.ok ws =>
    Except.ok (SinkOp.mkdir "modules" 0o755 :: ws ++
      [SinkOp.write_file "modules/load_all.sh" (load_all_script modfiles) 0o644])

/-- The `_INIT` template up to (and excluding) the `{logfunc}` substitution
point. -/
def initHeader : String := "#!/bin/sh\n\n"

/-- The `_INIT` template between the `{logfunc}` and `{access}` substitution
points (verbatim). -/
def initPreAccess : String :=
  "\n\nsource /modules/load_all.sh\n\nlog \x27mounting hostfs...\x27\n\nif ! /bin/mount -n -t 9p -o "

/-- The `_INIT` template after the `{access}` substitution point (verbatim;
the Python `\x7b\x7b` and `\x7d\x7d` escapes render as literal braces). -/
def initPostAccess : String :=
  ",version=9p2000.L,trans=virtio,access=any /dev/root /newroot/; then\n  echo \"Failed to mount real root.  We are stuck.\"\n  sleep 5\n  exit 1\nfi\n\n# Can we actually use /newroot/ as root?\nif ! mount -t proc -o nosuid,noexec,nodev proc /newroot/proc 2>/dev/null; then\n  # QEMU 1.5 and below have a bug in virtfs that prevents mounting\n  # anything on top of a virtfs mount.\n  log \"your host\x27s virtfs is broken -- using a fallback tmpfs\"\n  need_fallback_tmpfs=1\nelse\n  umount /newroot/proc  # Don\x27t leave garbage behind\nfi\n\nif ! [[ -d /newroot/run ]]; then\n  log \"your guest\x27s root does not have /run -- using a fallback tmpfs\"\n  need_fallback_tmpfs=1\nfi\n\nif [[ \"$need_fallback_tmpfs\" != \"\" ]]; then\n  mount --move /newroot /tmproot\n  mount -t tmpfs root_workaround /newroot/\n  cd tmproot\n  mkdir /newroot/proc /newroot/sys /newroot/dev /newroot/run /newroot/tmp\n  for i in *; do\n    if [[ -d \"$i\" && \\! -d \"/newroot/$i\" ]]; then\n      mkdir /newroot/\"$i\"\n      mount --bind \"$i\" /newroot/\"$i\"\n    fi\n  done\n  mknod /newroot/dev/null c 1 3\n  mount -o remount,ro -t tmpfs root_workaround /newroot\n  umount -l /tmproot\nfi\n\nmount -t tmpfs run /newroot/run\ncp -a /run_virtme /newroot/run/virtme\n\n# Find init\nmount -t proc none /proc\nfor arg in `cat /proc/cmdline`; do\n  if [[ \"$\x7barg%%=*\x7d\" = \"init\" ]]; then\n    init=\"$\x7barg#init=\x7d\"\n    break\n  fi\ndone\numount /proc\n\nif [[ -z \"$init\" ]]; then\n  log \x27no init= option\x27\n  exit 1\nfi\n\nlog \x27done; switching to real root\x27\nexec /bin/switch_root /newroot \"$init\" \"$@\"\n"

/-- Source: `generate_init(config)` —
`_INIT.format(logfunc=_LOGFUNC, access=config.access)`: the fixed template
with the logging snippet and the access mode spliced in. -/
def generate_init (config : Config) : String :=
  initHeader ++ logfuncText ++ initPreAccess ++ config.access ++ initPostAccess

/-- The payload loop of `mkinitramfs`:
`for name, contents in config.virtme_data.items(): cw.write_file(b'run_virtme/data/' + name, contents, 0o755)`. -/
def payloadOps (config : Config) : List SinkOp :=
  config.virtme_data.map
    (fun nc => SinkOp.write_file ("run_virtme/data/" ++ nc.1) nc.2 0o755)

/-- Source: `mkinitramfs(out, config)` — the top-level build: base layout,
device nodes, busybox and its dependencies, the modprobe stub, the modules
step (guarded by `config.modfiles is not None`), the payload entries, the
`/init` script, and finally the trailer. -/
def mkinitramfs (host : Host) (config : Config) : Except Err (List SinkOp) :=
  match install_busybox host config with
  | Except.error e => Except.error e
  | Except.ok busy =>
    match (match config.modfiles with
           | some mf => install_modules host mf
           | none => Except.ok []) with
    | Except.error e => Except.error e
    | Except.ok mods =>
      Except.ok (make_base_layout ++ make_dev_nodes ++ busy ++
        install_modprobe ++ mods ++ payloadOps config ++
        [SinkOp.write_file "init" (generate_init config) 0o755,
         SinkOp.write_trailer])

/-!
Statement vocabulary (not part of the source): substring counting, used to
state properties about generated script text, and dot-dot path normalization,
used to state that an archive path escapes a directory.
-/

/-- Does the pattern occur as a prefix of the character list? -/
def isPrefixList : List Char → List Char → Bool
  | [], _ => true
  | _ :: _, [] => false
  | p :: ps, c :: cs => p = c && isPrefixList ps cs

/-- Number of (possibly overlapping) occurrences of a pattern in a character
list. -/
def countOcc (pat : List Char) : List Char → Nat
  | [] => 0
  | c :: cs => (if isPrefixList pat (c :: cs) then 1 else 0) + countOcc pat cs

/-- Number of occurrences of `pat` inside `s`. -/
def occursIn (s pat : String) : Nat := countOcc pat.data s.data

/-- Resolve `..`, `.` and empty segments of a slash-separated path (helper for
stating that a path escapes its intended directory). -/
def normAux : List String → List String → List String
  | stack, [] => stack.reverse
  | stack, seg :: rest =>
    if seg = ".." then normAux stack.tail rest
    else if seg = "." ∨ seg = "" then normAux stack rest
    else normAux (seg :: stack) rest

/-- Normalize a relative path by resolving `..` segments. -/
def normalizePath (p : String) : String :=
  String.intercalate "/" (normAux [] (splitSlash p))

/-!
Concrete hosts and configurations used by witnesses and counterexamples.
-/

/-- Host with a single statically linked executable `bb`. -/
def hostA : Host :=
  { isfile := fun p => p == "bb",
    readFile := fun _ => "",
    elf := fun _ => { dynamic := none } }

/-- Default configuration with the executable set to `bb`. -/
def configA : Config := { Config.defaults with busybox := some "bb" }

/-- Host for the module-loader scenario: module files `a.ko` and `b.ko`. -/
def host7 : Host :=
  { isfile := fun p => p == "a.ko" || p == "b.ko",
    readFile := fun _ => "",
    elf := fun _ => { dynamic := none } }

/-- Filesystem for the all-dependencies-present scenario: `liba.so` lives in
both `/lib64` and `/usr/lib64` (so first-match-wins is observable), `libb.so`
only in `/usr/lib`. -/
def isfile4 : String → Bool := fun p =>
  p == "/lib64/liba.so" || p == "/usr/lib/libb.so" || p == "/usr/lib64/liba.so"

/-- Dynamic tags for the all-present scenario: two `DT_NEEDED` entries with an
unrelated tag between them. -/
def tags4 : List DynTag :=
  [{ d_tag := "DT_NEEDED", needed := "liba.so" },
   { d_tag := "DT_SONAME", needed := "libfoo" },
   { d_tag := "DT_NEEDED", needed := "libb.so" }]

/-- A `DT_NEEDED` tag whose library exists in no search directory. -/
def tagMissing : DynTag := { d_tag := "DT_NEEDED", needed := "libnowhere.so.7" }

/-- Configuration with a payload name containing `..` segments. -/
def configC : Config :=
  { Config.defaults with
    busybox := some "bb"
    virtme_data := [("../../etc/passwd", "pwned")] }

/-- Configuration whose executable path names no file on `hostA`. -/
def configB : Config := { Config.defaults with busybox := some "nope" }

/-- Operation trace of a successful build (empty when the build failed). -/
def opsFor (host : Host) (config : Config) : List SinkOp :=
  (mkinitramfs host config).toOption.getD []

/-- The fixed-layout entries of the archive: the skeleton directories, the two
compatibility symlinks, and the three device nodes, in emission order. -/
def fixedOps : List SinkOp := make_base_layout ++ make_dev_nodes

/-- Operation emitted by a configuration-dependent build step: not one of the
fixed-layout entries and not the trailer. -/
def nonFixed (op : SinkOp) : Prop :=
  op ∉ fixedOps ∧ op ≠ SinkOp.write_trailer

set_option maxRecDepth 40000

/-- The directory-scanning loop of `find_library_path` returns the first
search directory containing the name, paired with the `lstrip`-ped archive
path. -/
theorem find_library_path_go_eq (isfile : String → Bool) (needed : String)
    (l : List String) :
    find_library_path_go isfile needed l =
      (l.find? (fun dir => isfile (osPathJoin dir needed))).map
        (fun dir => (osPathJoin dir needed, lstripSlash (osPathJoin dir needed))) := by
  induction l with
  | nil => rfl
  | cons dir rest ih =>
    simp only [find_library_path_go, List.find?_cons]
    cases h : isfile (osPathJoin dir needed) with
    | false => simp [h, ih]
    | true => simp [h]

/-- C3: for every executable with no dynamic section, dependency resolution
returns the empty sequence (and, being a total function, signals no
error). -/
theorem c3_theorem : ∀ isfile : String → Bool,
    find_needed_paths isfile { dynamic := none } = [] := fun _ => rfl

/-- C4: when every declared needed name is a regular file in some search
directory, resolution returns one entry per declared name, in declaration
order; each entry comes from the first directory of
`/lib, /lib64, /usr/lib, /usr/lib64` containing the name (`List.find?`), with
the archive path equal to the host path stripped of its leading
separator(s). -/
theorem c4_theorem (isfile : String → Bool) (tags : List DynTag)
    (h : ∀ t ∈ tags.filter is_dt_needed,
      ∃ dir ∈ ld_paths, isfile (osPathJoin dir t.needed) = true) :
    find_needed_paths isfile { dynamic := some tags } =
      (tags.filter is_dt_needed).map (fun t =>
        (ld_paths.find? (fun dir => isfile (osPathJoin dir t.needed))).map
          (fun dir => (osPathJoin dir t.needed, lstripSlash (osPathJoin dir t.needed)))) ∧
    ∀ t ∈ tags.filter is_dt_needed,
      (ld_paths.find? (fun dir => isfile (osPathJoin dir t.needed))).isSome = true := by
  constructor
  · simp only [find_needed_paths, List.map_map]
    exact List.map_congr_left (fun t _ => by
      simp only [Function.comp, find_library_path, find_library_path_go_eq])
  · intro t ht
    obtain ⟨dir, hdir, hfile⟩ := h t ht
    exact List.find?_isSome.mpr ⟨dir, hdir, hfile⟩

/-- Witness for C4 at a concrete filesystem: `liba.so` resolves to its
`/lib64` copy (not the `/usr/lib64` one), `libb.so` to `/usr/lib`; exactly one
entry per `DT_NEEDED` name, in order. -/
theorem c4_witness :
    (∀ t ∈ tags4.filter is_dt_needed,
      ∃ dir ∈ ld_paths, isfile4 (osPathJoin dir t.needed) = true) ∧
    find_needed_paths isfile4 { dynamic := some tags4 } =
      [some ("/lib64/liba.so", "lib64/liba.so"),
       some ("/usr/lib/libb.so", "usr/lib/libb.so")] :=
  ⟨by decide, by rw [(c4_theorem isfile4 tags4 (by decide)).1]; decide⟩

/-- C1 (counterexample to the claim as stated): for an executable declaring a
single needed name present in no search directory, dependency resolution does
NOT drop the name — the returned sequence is `[none]`, which is not empty: it
contains a placeholder entry for the missing name. -/
theorem c1_counterexample :
    find_needed_paths (fun _ => false) { dynamic := some [tagMissing] } = [none] ∧
    find_needed_paths (fun _ => false) { dynamic := some [tagMissing] } ≠ [] :=
  ⟨by decide, by decide⟩

/-- C1 (amended): a declared name matched in no search directory is not
dropped; resolution itself raises no error (it is total), but it keeps a
`none` placeholder for that name, and the returned sequence's length always
equals (hence is at most) the number of declared needed names. -/
theorem c1_theorem (isfile : String → Bool) (tags : List DynTag) :
    (find_needed_paths isfile { dynamic := some tags }).length =
      (tags.filter is_dt_needed).length ∧
    ∀ t ∈ tags.filter is_dt_needed,
      (∀ dir ∈ ld_paths, isfile (osPathJoin dir t.needed) = false) →
        find_library_path isfile t.needed = none ∧
        none ∈ find_needed_paths isfile { dynamic := some tags } := by
  constructor
  · simp [find_needed_paths]
  · intro t ht hmiss
    have hnone : find_library_path isfile t.needed = none := by
      rw [find_library_path, find_library_path_go_eq]
      have : ld_paths.find? (fun dir => isfile (osPathJoin dir t.needed)) = none :=
        List.find?_eq_none.mpr (fun dir hdir => by simp [hmiss dir hdir])
      simp [this]
    refine ⟨hnone, ?_⟩
    simp only [find_needed_paths, List.map_map]
    exact List.mem_map.mpr ⟨t, ht, by simpa [Function.comp] using hnone⟩

/-- Witness for C1 (amended) at the concrete missing-library input. -/
theorem c1_witness :
    (∀ dir ∈ ld_paths,
      (fun _ => false : String → Bool) (osPathJoin dir tagMissing.needed) = false) ∧
    none ∈ find_needed_paths (fun _ => false) { dynamic := some [tagMissing] } :=
  ⟨by decide,
   ((c1_theorem (fun _ => false) [tagMissing]).2 tagMissing (by decide) (by decide)).2⟩

/-- C5: the generated init script is the fixed template with the
configuration's access mode spliced, verbatim, into the 9p mount options; a
read-write configuration embeds the read-write option substring exactly once,
and the default (read-only) configuration embeds the read-only option
substring exactly once. -/
theorem c5_theorem :
    (∀ config : Config,
      generate_init config =
        initHeader ++ logfuncText ++ initPreAccess ++ config.access ++ initPostAccess) ∧
    occursIn (generate_init { Config.defaults with access := "rw" })
      "-o rw,version=9p2000.L,trans=virtio,access=any" = 1 ∧
    occursIn (generate_init Config.defaults)
      "-o ro,version=9p2000.L,trans=virtio,access=any" = 1 ∧
    occursIn (generate_init Config.defaults)
      "-o rw,version=9p2000.L,trans=virtio,access=any" = 0 ∧
    Config.defaults.access = "ro" :=
  ⟨fun _ => rfl, by decide, by decide, by decide, rfl⟩

/-- C7: for module files `[a.ko, b.ko]`, `install_modules` emits the module
directory, the two module copies in order, and a loader script that consists
of the logging helper followed by exactly two loading-log lines and two
`insmod` invocations, `a.ko` before `b.ko`, each naming the module's archive
path (which `shlex.quote` leaves unquoted here). -/
theorem c7_theorem :
    install_modules host7 ["a.ko", "b.ko"] = Except.ok
      [SinkOp.mkdir "modules" 0o755,
       SinkOp.write_file "modules/a.ko" "" 0o644,
       SinkOp.write_file "modules/b.ko" "" 0o644,
       SinkOp.write_file "modules/load_all.sh"
         (load_all_script ["a.ko", "b.ko"]) 0o644] ∧
    load_all_script ["a.ko", "b.ko"] =
      logfuncText ++
        "log \x27loading a.ko...\x27; insmod modules/a.ko\nlog \x27loading b.ko...\x27; insmod modules/b.ko" ∧
    occursIn (load_all_script ["a.ko", "b.ko"]) "log \x27loading " = 2 ∧
    occursIn (load_all_script ["a.ko", "b.ko"]) "insmod " = 2 ∧
    occursIn logfuncText "log \x27loading " = 0 ∧
    occursIn logfuncText "insmod " = 0 :=
  ⟨rfl, by decide, by decide, by decide, by decide, by decide⟩

theorem write_file_nonFixed (n b m : _) : nonFixed (SinkOp.write_file n b m) := by
  constructor
  · intro hmem
    simp [fixedOps, make_base_layout, make_dev_nodes, baseDirs] at hmem
  · simp

theorem symlink_busybox_nonFixed (t : String) :
    nonFixed (SinkOp.symlink "busybox" t) := by
  constructor
  · intro hmem
    simp [fixedOps, make_base_layout, make_dev_nodes, baseDirs] at hmem
  · simp

theorem real_progs_nonFixed : nonFixed (SinkOp.mkdir "bin/real_progs" 0o755) :=
  ⟨by decide, by decide⟩

theorem modules_dir_nonFixed : nonFixed (SinkOp.mkdir "modules" 0o755) :=
  ⟨by decide, by decide⟩

/-- Every operation emitted by a successful run of the dependency-copy loop is
a `write_file`. -/
theorem installDeps_shape {host : Host} :
    ∀ {l : List (Option (String × String))} {r : List SinkOp},
      installDeps host l = Except.ok r → ∀ op ∈ r, ∃ n b m, op = SinkOp.write_file n b m := by
  intro l
  induction l with
  | nil =>
    intro r h op hop
    simp only [installDeps, Except.ok.injEq] at h
    subst h
    simp at hop
  | cons hd tl ih =>
    intro r h op hop
    match hd with
    | none => simp [installDeps] at h
    | some (np, tp) =>
      simp only [installDeps] at h
      cases hc : copy host np tp 0o755 with
      | error e => rw [hc] at h; simp at h
      | ok c =>
        rw [hc] at h
        cases hr : installDeps host tl with
        | error e => rw [hr] at h; simp at h
        | ok r2 =>
          rw [hr] at h
          simp only [Except.ok.injEq] at h
          subst h
          rcases List.mem_append.mp hop with hin | hin
          · unfold copy at hc
            by_cases hf : host.isfile np = true
            · simp [hf] at hc
              subst hc
              simp at hin
              exact ⟨tp, host.readFile np, 0o755, hin⟩
            · simp [hf] at hc
          · exact ih hr op hin

/-- Every operation emitted by a successful `install_busybox` is
configuration-dependent (never a fixed-layout entry, never the trailer). -/
theorem install_busybox_nonFixed {host : Host} {config : Config} {busy : List SinkOp}
    (h : install_busybox host config = Except.ok busy) :
    ∀ op ∈ busy, nonFixed op := by
  intro op hop
  unfold install_busybox at h
  split at h
  · exact absurd h (by simp)
  · rename_i bb hbb
    split at h
    · exact absurd h (by simp)
    · rename_i c0 hc
      split at h
      · exact absurd h (by simp)
      · rename_i deps hd
        simp only [Except.ok.injEq] at h
        subst h
        rcases List.mem_append.mp hop with hin | hin
        · rcases List.mem_append.mp hin with hin2 | hin2
          · rcases List.mem_append.mp hin2 with hin3 | hin3
            · unfold copy at hc
              by_cases hf : host.isfile bb = true
              · simp [hf] at hc
                subst hc
                simp at hin3
                subst hin3
                exact write_file_nonFixed _ _ _
              · simp [hf] at hc
            · obtain ⟨n, b, m, hw⟩ := installDeps_shape hd op hin3
              subst hw
              exact write_file_nonFixed _ _ _
          · obtain ⟨tool, -, hw⟩ := List.mem_map.mp hin2
            subst hw
            exact symlink_busybox_nonFixed _
        · simp at hin
          subst hin
          exact real_progs_nonFixed

/-- Every operation emitted by a successful module-copy loop is a
`write_file`. -/
theorem modWrites_shape {host : Host} :
    ∀ {mf : List String} {r : List SinkOp},
      modWrites host mf = Except.ok r → ∀ op ∈ r, ∃ n b m, op = SinkOp.write_file n b m := by
  intro mf
  induction mf with
  | nil =>
    intro r h op hop
    simp only [modWrites, Except.ok.injEq] at h
    subst h
    simp at hop
  | cons hd tl ih =>
    intro r h op hop
    simp only [modWrites] at h
    by_cases hf : host.isfile hd = true
    · rw [if_pos hf] at h
      cases hr : modWrites host tl with
      | error e => rw [hr] at h; simp at h
      | ok r2 =>
        rw [hr] at h
        simp only [Except.ok.injEq] at h
        subst h
        rcases List.mem_cons.mp hop with hin | hin
        · exact ⟨_, _, _, hin⟩
        · exact ih hr op hin
    · rw [if_neg hf] at h; simp at h

/-- Every operation emitted by a successful `install_modules` is
configuration-dependent (never a fixed-layout entry, never the trailer). -/
theorem install_modules_nonFixed {host : Host} {mf : List String} {mods : List SinkOp}
    (h : install_modules host mf = Except.ok mods) :
    ∀ op ∈ mods, nonFixed op := by
  intro op hop
  unfold install_modules at h
  cases hw : modWrites host mf with
  | error e => rw [hw] at h; simp at h
  | ok ws =>
    rw [hw] at h
    simp only [Except.ok.injEq] at h
    subst h
    rcases List.mem_cons.mp hop with hin | hin
    · subst hin; exact modules_dir_nonFixed
    · rcases List.mem_append.mp hin with hin2 | hin2
      · obtain ⟨n, b, m, hwf⟩ := modWrites_shape hw op hin2
        subst hwf
        exact write_file_nonFixed _ _ _
      · simp at hin2
        subst hin2
        exact write_file_nonFixed _ _ _

/-- Every payload entry is a `write_file` under `run_virtme/data/`. -/
theorem payloadOps_nonFixed (config : Config) :
    ∀ op ∈ payloadOps config, nonFixed op := by
  intro op hop
  obtain ⟨nc, -, hw⟩ := List.mem_map.mp hop
  subst hw
  exact write_file_nonFixed _ _ _

/-- A successful top-level build decomposes into the exact emission order of
the source: base layout, device nodes, busybox step, modprobe stub, modules
step, payload entries, init script, trailer. -/
theorem mkinitramfs_shape {host : Host} {config : Config} {ops : List SinkOp}
    (h : mkinitramfs host config = Except.ok ops) :
    ∃ busy mods,
      install_busybox host config = Except.ok busy ∧
      (match config.modfiles with
       | some mf => install_modules host mf
       | none => Except.ok []) = Except.ok mods ∧
      ops = make_base_layout ++ make_dev_nodes ++ busy ++ install_modprobe ++
        mods ++ payloadOps config ++
        [SinkOp.write_file "init" (generate_init config) 0o755,
         SinkOp.write_trailer] := by
  unfold mkinitramfs at h
  cases hb : install_busybox host config with
  | error e => rw [hb] at h; simp at h
  | ok busy =>
    rw [hb] at h
    cases hm : (match config.modfiles with
                | some mf => install_modules host mf
                | none => Except.ok []) with
    | error e => rw [hm] at h; simp at h
    | ok mods =>
      rw [hm] at h
      simp only [Except.ok.injEq] at h
      exact ⟨busy, mods, rfl, rfl, h.symm⟩

/-- Count of an operation inside a segment all of whose operations are
configuration-dependent, counted against a fixed-layout entry: zero. -/
theorem count_zero_of_nonFixed {seg : List SinkOp} (hseg : ∀ op ∈ seg, nonFixed op)
    {f : SinkOp} (hf : f ∈ fixedOps) : seg.count f = 0 :=
  List.count_eq_zero_of_not_mem (fun hmem => (hseg f hmem).1 hf)

/-- C2 (counterexample to the claim as stated): with the default (empty)
module-file list the build does NOT skip the module-installation step — the
archive of a successful build contains a `modules` directory entry and a
`modules/load_all.sh` entry (the guard in the source is `is not None`, which
an empty list passes). -/
theorem c2_counterexample :
    configA.modfiles = some [] ∧
    mkinitramfs hostA configA = Except.ok (opsFor hostA configA) ∧
    SinkOp.mkdir "modules" 0o755 ∈ opsFor hostA configA ∧
    SinkOp.write_file "modules/load_all.sh" (load_all_script []) 0o644 ∈
      opsFor hostA configA :=
  ⟨rfl, rfl, by decide, by decide⟩

/-- C2 (amended): for every configuration whose module-file list is the empty
list (not `None`), the module-installation step still runs: a successful build
writes both the `modules` directory entry and the `modules/load_all.sh` entry,
whose script is just the logging helper (zero load lines). -/
theorem c2_theorem (host : Host) (config : Config) (ops : List SinkOp)
    (hmf : config.modfiles = some [])
    (h : mkinitramfs host config = Except.ok ops) :
    SinkOp.mkdir "modules" 0o755 ∈ ops ∧
    SinkOp.write_file "modules/load_all.sh" (load_all_script []) 0o644 ∈ ops ∧
    load_all_script [] = logfuncText := by
  obtain ⟨busy, mods, -, hm, rfl⟩ := mkinitramfs_shape h
  rw [hmf] at hm
  have hm2 : install_modules host [] = Except.ok mods := hm
  have hmods : mods =
      [SinkOp.mkdir "modules" 0o755,
       SinkOp.write_file "modules/load_all.sh" (load_all_script []) 0o644] := by
    have heval : install_modules host [] =
        Except.ok [SinkOp.mkdir "modules" 0o755,
          SinkOp.write_file "modules/load_all.sh" (load_all_script []) 0o644] := rfl
    rw [heval] at hm2
    exact ((Except.ok.injEq _ _).mp hm2).symm
  subst hmods
  refine ⟨?_, ?_, by decide⟩
  · simp
  · simp

/-- The modprobe-stub step emits only configuration-dependent operations. -/
theorem install_modprobe_nonFixed : ∀ op ∈ install_modprobe, nonFixed op := by
  intro op hop
  simp only [install_modprobe, List.mem_singleton] at hop
  subst hop
  exact write_file_nonFixed _ _ _

/-- A trailer never occurs in a segment of configuration-dependent
operations. -/
theorem count_trailer_zero {seg : List SinkOp} (hseg : ∀ op ∈ seg, nonFixed op) :
    seg.count SinkOp.write_trailer = 0 :=
  List.count_eq_zero_of_not_mem (fun hmem => (hseg _ hmem).2 rfl)

/-- The modules step of a successful build emits only configuration-dependent
operations (whether it ran on a list or was skipped for `None`). -/
theorem mods_nonFixed {host : Host} {config : Config} {mods : List SinkOp}
    (hm : (match config.modfiles with
           | some mf => install_modules host mf
           | none => Except.ok []) = Except.ok mods) :
    ∀ op ∈ mods, nonFixed op := by
  cases hmf : config.modfiles with
  | none =>
    rw [hmf] at hm
    have hm2 : (Except.ok [] : Except Err (List SinkOp)) = Except.ok mods := hm
    have : ([] : List SinkOp) = mods := (Except.ok.injEq _ _).mp hm2
    rw [← this]
    simp
  | some mf =>
    rw [hmf] at hm
    have hm2 : install_modules host mf = Except.ok mods := hm
    exact install_modules_nonFixed hm2

/-- C6: every successful build's operation sequence contains exactly one entry
for each fixed-layout item — the eleven skeleton directories (mode `0o755`),
the symlinks `sbin → bin` and `lib64 → lib`, and the device nodes `dev/null`
(1, 3, mode `0o666`), `dev/kmsg` (1, 11, mode `0o666`) and `dev/console`
(5, 1, mode `0o660`) — independent of the configuration's modules, payload and
executable. -/
theorem c6_theorem (host : Host) (config : Config) (ops : List SinkOp)
    (h : mkinitramfs host config = Except.ok ops) :
    (∀ f ∈ fixedOps, ops.count f = 1) ∧
    fixedOps =
      [SinkOp.mkdir "lib" 0o755, SinkOp.mkdir "bin" 0o755,
       SinkOp.mkdir "var" 0o755, SinkOp.mkdir "etc" 0o755,
       SinkOp.mkdir "newroot" 0o755, SinkOp.mkdir "dev" 0o755,
       SinkOp.mkdir "proc" 0o755, SinkOp.mkdir "tmproot" 0o755,
       SinkOp.mkdir "run_virtme" 0o755, SinkOp.mkdir "run_virtme/data" 0o755,
       SinkOp.mkdir "run_virtme/guesttools" 0o755,
       SinkOp.symlink "bin" "sbin", SinkOp.symlink "lib" "lib64",
       SinkOp.mkchardev "dev/null" 1 3 0o666,
       SinkOp.mkchardev "dev/kmsg" 1 11 0o666,
       SinkOp.mkchardev "dev/console" 5 1 0o660] := by
  refine ⟨?_, by decide⟩
  obtain ⟨busy, mods, hb, hm, rfl⟩ := mkinitramfs_shape h
  intro f hf
  have hbusy := install_busybox_nonFixed hb
  have hmods := mods_nonFixed hm
  have hfin : List.count f
      [SinkOp.write_file "init" (generate_init config) 0o755,
       SinkOp.write_trailer] = 0 := by
    apply List.count_eq_zero_of_not_mem
    intro hmem
    rcases List.mem_cons.mp hmem with rfl | hmem2
    · exact (write_file_nonFixed _ _ _).1 hf
    · rcases List.mem_cons.mp hmem2 with rfl | hmem3
      · exact (by decide : SinkOp.write_trailer ∉ fixedOps) hf
      · simp at hmem3
  simp only [List.count_append]
  rw [List.count_eq_zero_of_not_mem (fun hmem => (hbusy f hmem).1 hf),
      List.count_eq_zero_of_not_mem (fun hmem => (install_modprobe_nonFixed f hmem).1 hf),
      List.count_eq_zero_of_not_mem (fun hmem => (hmods f hmem).1 hf),
      List.count_eq_zero_of_not_mem (fun hmem => (payloadOps_nonFixed config f hmem).1 hf),
      hfin]
  have h1 : (make_base_layout ++ make_dev_nodes).count f = 1 :=
    List.count_eq_one_of_mem (by decide) hf
  rw [List.count_append] at h1
  omega

/-- Witness for C6: a concrete successful build contains each device node and
skeleton directory exactly once. -/
theorem c6_witness :
    mkinitramfs hostA configA = Except.ok (opsFor hostA configA) ∧
    (opsFor hostA configA).count (SinkOp.mkchardev "dev/console" 5 1 0o660) = 1 :=
  ⟨rfl,
   (c6_theorem hostA configA (opsFor hostA configA) rfl).1
     (SinkOp.mkchardev "dev/console" 5 1 0o660) (by decide)⟩

/-- Witness for C2 (amended) at the concrete empty-module-list build. -/
theorem c2_witness :
    configA.modfiles = some [] ∧
    mkinitramfs hostA configA = Except.ok (opsFor hostA configA) ∧
    SinkOp.mkdir "modules" 0o755 ∈ opsFor hostA configA :=
  ⟨rfl, rfl, (c2_theorem hostA configA (opsFor hostA configA) rfl rfl).1⟩

/-- C8: when the configured executable path does not name a readable file at
build time — either it is unset (`open(None)` raises `TypeError`) or names a
non-file (`open` raises `FileNotFoundError`) — the build propagates the error
to the caller: `mkinitramfs` returns that error, emits no archive, and
performs no retry (the error value is the whole result). -/
theorem c8_theorem (host : Host) (config : Config) :
    (config.busybox = none → mkinitramfs host config = Except.error Err.typeError) ∧
    (∀ p, config.busybox = some p → host.isfile p = false →
      mkinitramfs host config = Except.error (Err.fileNotFound p)) := by
  constructor
  · intro hb
    have hbb : install_busybox host config = Except.error Err.typeError := by
      unfold install_busybox
      rw [hb]
    unfold mkinitramfs
    rw [hbb]
  · intro p hb hfile
    have hbb : install_busybox host config = Except.error (Err.fileNotFound p) := by
      unfold install_busybox
      rw [hb]
      have hcopy : copy host p "bin/busybox" 0o755 =
          Except.error (Err.fileNotFound p) := by
        unfold copy
        rw [hfile]
        simp
      simp only [hcopy]
    unfold mkinitramfs
    rw [hbb]

/-- Witness for C8: building with a missing executable fails with the
propagated open error. -/
theorem c8_witness :
    configB.busybox = some "nope" ∧
    hostA.isfile "nope" = false ∧
    mkinitramfs hostA configB = Except.error (Err.fileNotFound "nope") :=
  ⟨rfl, by decide, (c8_theorem hostA configB).2 "nope" rfl (by decide)⟩

/-- C9: a successful build emits, in this exact order: the base layout
(directories then symlinks), the device nodes, the busybox step (executable,
resolved dependencies, tool symlinks, `bin/real_progs`), the modprobe stub,
the modules step (run exactly when `modfiles` is not `None`), the payload
entries, the `/init` script, and a single trailer as the final operation. -/
theorem c9_theorem (host : Host) (config : Config) (ops : List SinkOp)
    (h : mkinitramfs host config = Except.ok ops) :
    ∃ busy mods,
      install_busybox host config = Except.ok busy ∧
      (config.modfiles = none → mods = []) ∧
      (∀ mf, config.modfiles = some mf → install_modules host mf = Except.ok mods) ∧
      ops = make_base_layout ++ make_dev_nodes ++ busy ++ install_modprobe ++
        mods ++ payloadOps config ++
        [SinkOp.write_file "init" (generate_init config) 0o755,
         SinkOp.write_trailer] ∧
      ops.getLast? = some SinkOp.write_trailer ∧
      ops.count SinkOp.write_trailer = 1 := by
  obtain ⟨busy, mods, hb, hm, hops⟩ := mkinitramfs_shape h
  refine ⟨busy, mods, hb, ?_, ?_, hops, ?_, ?_⟩
  · intro hnone
    rw [hnone] at hm
    have hm2 : (Except.ok [] : Except Err (List SinkOp)) = Except.ok mods := hm
    exact ((Except.ok.injEq _ _).mp hm2).symm
  · intro mf hsome
    rw [hsome] at hm
    exact hm
  · rw [hops]
    rw [List.getLast?_append_of_ne_nil _ (by simp)]
    simp
  · rw [hops]
    simp only [List.count_append]
    rw [count_trailer_zero (install_busybox_nonFixed hb),
        count_trailer_zero install_modprobe_nonFixed,
        count_trailer_zero (mods_nonFixed hm),
        count_trailer_zero (payloadOps_nonFixed config)]
    have hfixed : (make_base_layout.count SinkOp.write_trailer = 0) ∧
        (make_dev_nodes.count SinkOp.write_trailer = 0) := by decide
    rw [hfixed.1, hfixed.2]
    simp [List.count_cons]

/-- Witness for C9: the concrete build ends in the trailer, emitted exactly
once. -/
theorem c9_witness :
    mkinitramfs hostA configA = Except.ok (opsFor hostA configA) ∧
    (opsFor hostA configA).getLast? = some SinkOp.write_trailer := by
  refine ⟨rfl, ?_⟩
  obtain ⟨-, -, -, -, -, -, hlast, -⟩ :=
    c9_theorem hostA configA (opsFor hostA configA) rfl
  exact hlast

/-- C10: every payload pair is written verbatim — archive path is the data
prefix concatenated with the (unvalidated, unsanitized) name, mode `0o755`,
body the exact given content; and a name containing `..` segments yields an
entry whose path resolves outside the payload data directory. -/
theorem c10_theorem (host : Host) (config : Config) (ops : List SinkOp)
    (h : mkinitramfs host config = Except.ok ops) :
    (∀ nc ∈ config.virtme_data,
      SinkOp.write_file ("run_virtme/data/" ++ nc.1) nc.2 0o755 ∈ ops) ∧
    isPrefixList "run_virtme/data/".data
      (normalizePath ("run_virtme/data/" ++ "../../etc/passwd")).data = false ∧
    normalizePath ("run_virtme/data/" ++ "../../etc/passwd") = "etc/passwd" := by
  refine ⟨?_, by decide, by decide⟩
  obtain ⟨busy, mods, -, -, rfl⟩ := mkinitramfs_shape h
  intro nc hnc
  have hmem : SinkOp.write_file ("run_virtme/data/" ++ nc.1) nc.2 0o755 ∈
      payloadOps config := by
    exact List.mem_map.mpr ⟨nc, hnc, rfl⟩
  simp only [List.mem_append]
  exact Or.inl (Or.inr hmem)

/-- Witness for C10: a concrete build with the escaping payload name contains
the verbatim (escaping) entry. -/
theorem c10_witness :
    mkinitramfs hostA configC = Except.ok (opsFor hostA configC) ∧
    SinkOp.write_file ("run_virtme/data/" ++ "../../etc/passwd") "pwned" 0o755 ∈
      opsFor hostA configC :=
  ⟨rfl,
   (c10_theorem hostA configC (opsFor hostA configC) rfl).1
     ("../../etc/passwd", "pwned") (by decide)⟩

end Virtme
